import Mathlib

/-!
Verification of the governance aggregation and rendering model of
`gh-repo-inspect`, a read-only CLI tool that collects a repository's
governance configuration (settings, rulesets, collaborators, teams,
security settings, labels, milestones) and renders it as JSON, YAML or
an ASCII tree.

The Go source is shallowly embedded: the flat data-transfer structs become
Lean structures, the sequential collector calls become explicit state
passing parameterised by an oracle of collector outcomes (the aggregator
afterwards reassigns the record to the source's fixed mock-data literal,
whose unseen opening fields are held abstract), and the formatter becomes
a pure function from a record to the list of chunks it writes to standard
output.  JSON and YAML documents are modelled by a
common value tree `JValue`; the field-name/omission rules of
`encoding/json` (honouring the `json:"...,omitempty"` struct tags) and of
`gopkg.in/yaml.v3` (which ignores `json` tags, lowercases Go field names
and, absent `yaml` tags, never omits a field) are embedded per struct.
-/

set_option autoImplicit false

namespace RepoInspect

/-- A generic tree of encoded values, used for both the JSON and the YAML
document models.  `obj` keeps fields in emission order. -/
inductive JValue where
  | str (s : String)
  | bool (b : Bool)
  | int (n : Int)
  | arr (elems : List JValue)
  | obj (fields : List (String × JValue))

/-- `RepoInfo` from the source: owner and name of the inspected repository. -/
structure RepoInfo where
  Owner : String
  Name : String
deriving DecidableEq

/-- `Ruleset` from the source: one branch-protection ruleset. -/
structure Ruleset where
  Name : String
  Pattern : String
  EnforceAdmins : Bool
  RequiredStatusChecks : List String
  RequiredPullRequestReviews : Bool
  RequiredApprovingReviewCount : Int
  DismissStaleReviews : Bool
  RequireCodeOwnerReviews : Bool
  RequiredLinearHistory : Bool
  AllowForcePushes : Bool
  AllowDeletions : Bool
  RequiredConversationResolution : Bool
deriving DecidableEq

/-- `Collaborator` from the source. -/
structure Collaborator where
  Login : String
  Permission : String
  «Type» : String
deriving DecidableEq

/-- `Team` from the source. -/
structure Team where
  Name : String
  Slug : String
  Permission : String
deriving DecidableEq

/-- `SecuritySettings` from the source. -/
structure SecuritySettings where
  VulnerabilityAlerts : Bool
  AutomatedSecurityFixes : Bool
  SecretScanning : Bool
  SecretScanningPushProtection : Bool
  DependencyGraphEnabled : Bool
deriving DecidableEq

/-- `RepositorySettings` from the source. -/
structure RepositorySettings where
  Private : Bool
  Archived : Bool
  Disabled : Bool
  DefaultBranch : String
  AllowMergeCommit : Bool
  AllowSquashMerge : Bool
  AllowRebaseMerge : Bool
  AllowAutoMerge : Bool
  DeleteBranchOnMerge : Bool
  HasIssues : Bool
  HasProjects : Bool
  HasWiki : Bool
  HasDownloads : Bool
deriving DecidableEq

/-- `Label` from the source. -/
structure Label where
  Name : String
  Color : String
  Description : String
deriving DecidableEq

/-- `Milestone` from the source. -/
structure Milestone where
  Title : String
  Description : String
  State : String
  DueOn : String
deriving DecidableEq

/-- `GovernanceConfig` from the source: the aggregate governance record. -/
structure GovernanceConfig where
  Repository : RepoInfo
  Rulesets : List Ruleset
  RequiredChecks : List String
  Collaborators : List Collaborator
  Teams : List Team
  SecuritySettings : SecuritySettings
  RepoSettings : RepositorySettings
  IssueLabels : List Label
  Milestones : List Milestone
deriving DecidableEq

/-- Go zero value of `SecuritySettings`. -/
def zeroSecuritySettings : SecuritySettings :=
  { VulnerabilityAlerts := false, AutomatedSecurityFixes := false,
    SecretScanning := false, SecretScanningPushProtection := false,
    DependencyGraphEnabled := false }

/-- Go zero value of `RepositorySettings`. -/
def zeroRepositorySettings : RepositorySettings :=
  { Private := false, Archived := false, Disabled := false, DefaultBranch := "",
    AllowMergeCommit := false, AllowSquashMerge := false, AllowRebaseMerge := false,
    AllowAutoMerge := false, DeleteBranchOnMerge := false, HasIssues := false,
    HasProjects := false, HasWiki := false, HasDownloads := false }

/-- The freshly constructed record at the top of `inspectRepository`:
only the repository identity is populated, every other field holds its Go
zero value. -/
def initialGovernance (owner repo : String) : GovernanceConfig :=
  { Repository := { Owner := owner, Name := repo },
    Rulesets := [], RequiredChecks := [], Collaborators := [], Teams := [],
    SecuritySettings := zeroSecuritySettings,
    RepoSettings := zeroRepositorySettings,
    IssueLabels := [], Milestones := [] }

/-- Modelled from the spec: `utils.ShouldIncludeSection` (the `utils`
package is not under `src/`; only its callers are).  If the filter list is
empty every section is included; otherwise a section is included iff its
name is a member of the list, under exact, case-sensitive string
comparison. -/
def ShouldIncludeSection (filterList : List String) (sectionName : String) : Bool :=
  if filterList.isEmpty then true else filterList.contains sectionName

/-- `shouldIncludeSection` from the source (the aggregator-side wrapper);
the global `sections` slice is passed explicitly. -/
def shouldIncludeSection (sections : List String) (sec : String) : Bool :=
  ShouldIncludeSection sections sec

/-- `shouldIncludeSectionOutput` from the source (the renderer-side wrapper). -/
def shouldIncludeSectionOutput (sec : String) (sectionsFilter : List String) : Bool :=
  ShouldIncludeSection sectionsFilter sec

/-- Modelled from the spec: `utils.BoolToIcon` (not under `src/`).
Booleans render as a fixed pair of glyphs: true as a check-style icon,
false as a cross-style icon. -/
def BoolToIcon (b : Bool) : String :=
  if b then "✅" else "❌"

/-- Modelled from the spec: `utils.PermissionToIcon` (not under `src/`).
Permission levels render through a fixed lookup table of glyphs indexed by
level name, with a default glyph for unrecognized levels. -/
def PermissionToIcon (permission : String) : String :=
  if permission = "admin" then "🔑 admin"
  else if permission = "write" then "✏️ write"
  else if permission = "triage" then "🔍 triage"
  else if permission = "read" then "📖 read"
  else "❔ " ++ permission

/-- `boolToIcon` from the source (wrapper around `utils.BoolToIcon`). -/
def boolToIcon (b : Bool) : String :=
  BoolToIcon b

/-- `permissionToIcon` from the source (wrapper around `utils.PermissionToIcon`). -/
def permissionToIcon (permission : String) : String :=
  PermissionToIcon permission

/-! ## JSON document model

`outputJSON` encodes the record with Go's `encoding/json`, honouring the
`json:"...,omitempty"` struct tags: field names are the snake_case tag
names, fields appear in struct declaration order, and a field tagged
`omitempty` is dropped when its value is the zero value (empty slice or
empty string for the tags used here). -/

/-- One field of a JSON object under `encoding/json` `omitempty`
semantics: emitted unless the value is zero. -/
def omitPair (isZero : Bool) (key : String) (v : JValue) : List (String × JValue) :=
  if isZero then [] else [(key, v)]

/-- JSON encoding of `RepoInfo`. -/
def repoInfoToJson (r : RepoInfo) : JValue :=
  .obj [("owner", .str r.Owner), ("name", .str r.Name)]

/-- JSON encoding of `Ruleset` (`required_status_checks` is `omitempty`). -/
def rulesetToJson (r : Ruleset) : JValue :=
  .obj ([("name", .str r.Name),
         ("pattern", .str r.Pattern),
         ("enforce_admins", .bool r.EnforceAdmins)]
    ++ omitPair r.RequiredStatusChecks.isEmpty "required_status_checks"
         (.arr (r.RequiredStatusChecks.map JValue.str))
    ++ [("required_pull_request_reviews", .bool r.RequiredPullRequestReviews),
        ("required_approving_review_count", .int r.RequiredApprovingReviewCount),
        ("dismiss_stale_reviews", .bool r.DismissStaleReviews),
        ("require_code_owner_reviews", .bool r.RequireCodeOwnerReviews),
        ("required_linear_history", .bool r.RequiredLinearHistory),
        ("allow_force_pushes", .bool r.AllowForcePushes),
        ("allow_deletions", .bool r.AllowDeletions),
        ("required_conversation_resolution", .bool r.RequiredConversationResolution)])

/-- JSON encoding of `Collaborator`. -/
def collaboratorToJson (c : Collaborator) : JValue :=
  .obj [("login", .str c.Login), ("permission", .str c.Permission),
        ("type", .str c.«Type»)]

/-- JSON encoding of `Team`. -/
def teamToJson (t : Team) : JValue :=
  .obj [("name", .str t.Name), ("slug", .str t.Slug), ("permission", .str t.Permission)]

/-- JSON encoding of `SecuritySettings`. -/
def securityToJson (s : SecuritySettings) : JValue :=
  .obj [("vulnerability_alerts", .bool s.VulnerabilityAlerts),
        ("automated_security_fixes", .bool s.AutomatedSecurityFixes),
        ("secret_scanning", .bool s.SecretScanning),
        ("secret_scanning_push_protection", .bool s.SecretScanningPushProtection),
        ("dependency_graph_enabled", .bool s.DependencyGraphEnabled)]

/-- JSON encoding of `RepositorySettings`. -/
def repoSettingsToJson (s : RepositorySettings) : JValue :=
  .obj [("private", .bool s.Private),
        ("archived", .bool s.Archived),
        ("disabled", .bool s.Disabled),
        ("default_branch", .str s.DefaultBranch),
        ("allow_merge_commit", .bool s.AllowMergeCommit),
        ("allow_squash_merge", .bool s.AllowSquashMerge),
        ("allow_rebase_merge", .bool s.AllowRebaseMerge),
        ("allow_auto_merge", .bool s.AllowAutoMerge),
        ("delete_branch_on_merge", .bool s.DeleteBranchOnMerge),
        ("has_issues", .bool s.HasIssues),
        ("has_projects", .bool s.HasProjects),
        ("has_wiki", .bool s.HasWiki),
        ("has_downloads", .bool s.HasDownloads)]

/-- JSON encoding of `Label` (`description` is `omitempty`). -/
def labelToJson (l : Label) : JValue :=
  .obj ([("name", .str l.Name), ("color", .str l.Color)]
    ++ omitPair (l.Description = "") "description" (.str l.Description))

/-- JSON encoding of `Milestone` (`description` and `due_on` are `omitempty`). -/
def milestoneToJson (m : Milestone) : JValue :=
  .obj ([("title", .str m.Title)]
    ++ omitPair (m.Description = "") "description" (.str m.Description)
    ++ [("state", .str m.State)]
    ++ omitPair (m.DueOn = "") "due_on" (.str m.DueOn))

/-- Top-level JSON fields of `GovernanceConfig`, in struct order; the six
sequence fields are `omitempty`. -/
def govToJsonPairs (g : GovernanceConfig) : List (String × JValue) :=
  [("repository", repoInfoToJson g.Repository)]
  ++ omitPair g.Rulesets.isEmpty "rulesets" (.arr (g.Rulesets.map rulesetToJson))
  ++ omitPair g.RequiredChecks.isEmpty "required_checks"
       (.arr (g.RequiredChecks.map JValue.str))
  ++ omitPair g.Collaborators.isEmpty "collaborators"
       (.arr (g.Collaborators.map collaboratorToJson))
  ++ omitPair g.Teams.isEmpty "teams" (.arr (g.Teams.map teamToJson))
  ++ [("security_settings", securityToJson g.SecuritySettings),
      ("repository_settings", repoSettingsToJson g.RepoSettings)]
  ++ omitPair g.IssueLabels.isEmpty "issue_labels" (.arr (g.IssueLabels.map labelToJson))
  ++ omitPair g.Milestones.isEmpty "milestones" (.arr (g.Milestones.map milestoneToJson))

/-- JSON document written by `outputJSON`. -/
def govToJson (g : GovernanceConfig) : JValue :=
  .obj (govToJsonPairs g)

/-! ## Decoding (unmarshalling)

`json.Unmarshal` / `yaml.Unmarshal` look every struct field up by its key
in the document's object; a missing key leaves the field at its zero
value.  The decoders below model that lookup discipline on the well-typed
documents the encoders produce. -/

/-- First value bound to `key` in an object's field list (the lookup that
unmarshalling performs for each struct field). -/
def jget : List (String × JValue) → String → Option JValue
  | [], _ => none
  | (k, v) :: rest, key => if k = key then some v else jget rest key

/-- Decode a string field; missing or mistyped keys yield the zero value. -/
def jStr (ps : List (String × JValue)) (key : String) : String :=
  match jget ps key with
  | some (.str s) => s
  | _ => ""

/-- Decode a boolean field. -/
def jBool (ps : List (String × JValue)) (key : String) : Bool :=
  match jget ps key with
  | some (.bool b) => b
  | _ => false

/-- Decode an integer field. -/
def jInt (ps : List (String × JValue)) (key : String) : Int :=
  match jget ps key with
  | some (.int n) => n
  | _ => 0

/-- Decode an optional array value elementwise; missing or mistyped
values yield the zero value (empty list). -/
def jArrDecode {α : Type} (dec : JValue → α) : Option JValue → List α
  | some (.arr l) => l.map dec
  | _ => []

/-- Decode an array field elementwise. -/
def jArrWith {α : Type} (dec : JValue → α) (ps : List (String × JValue))
    (key : String) : List α :=
  jArrDecode dec (jget ps key)

/-- Decode one string element of a string array. -/
def jStrElem : JValue → String
  | .str s => s
  | _ => ""

/-- Fields of an object document; a non-object yields no fields. -/
def jFields : JValue → List (String × JValue)
  | .obj ps => ps
  | _ => []

/-- Decode `RepoInfo` from JSON. -/
def repoInfoOfJson (v : JValue) : RepoInfo :=
  let ps := jFields v
  { Owner := jStr ps "owner", Name := jStr ps "name" }

/-- Decode `Ruleset` from JSON. -/
def rulesetOfJson (v : JValue) : Ruleset :=
  let ps := jFields v
  { Name := jStr ps "name",
    Pattern := jStr ps "pattern",
    EnforceAdmins := jBool ps "enforce_admins",
    RequiredStatusChecks := jArrWith jStrElem ps "required_status_checks",
    RequiredPullRequestReviews := jBool ps "required_pull_request_reviews",
    RequiredApprovingReviewCount := jInt ps "required_approving_review_count",
    DismissStaleReviews := jBool ps "dismiss_stale_reviews",
    RequireCodeOwnerReviews := jBool ps "require_code_owner_reviews",
    RequiredLinearHistory := jBool ps "required_linear_history",
    AllowForcePushes := jBool ps "allow_force_pushes",
    AllowDeletions := jBool ps "allow_deletions",
    RequiredConversationResolution := jBool ps "required_conversation_resolution" }

/-- Decode `Collaborator` from JSON. -/
def collaboratorOfJson (v : JValue) : Collaborator :=
  let ps := jFields v
  { Login := jStr ps "login", Permission := jStr ps "permission",
    «Type» := jStr ps "type" }

/-- Decode `Team` from JSON. -/
def teamOfJson (v : JValue) : Team :=
  let ps := jFields v
  { Name := jStr ps "name", Slug := jStr ps "slug", Permission := jStr ps "permission" }

/-- Decode `SecuritySettings` from JSON. -/
def securityOfJson (v : JValue) : SecuritySettings :=
  let ps := jFields v
  { VulnerabilityAlerts := jBool ps "vulnerability_alerts",
    AutomatedSecurityFixes := jBool ps "automated_security_fixes",
    SecretScanning := jBool ps "secret_scanning",
    SecretScanningPushProtection := jBool ps "secret_scanning_push_protection",
    DependencyGraphEnabled := jBool ps "dependency_graph_enabled" }

/-- Decode `RepositorySettings` from JSON. -/
def repoSettingsOfJson (v : JValue) : RepositorySettings :=
  let ps := jFields v
  { Private := jBool ps "private",
    Archived := jBool ps "archived",
    Disabled := jBool ps "disabled",
    DefaultBranch := jStr ps "default_branch",
    AllowMergeCommit := jBool ps "allow_merge_commit",
    AllowSquashMerge := jBool ps "allow_squash_merge",
    AllowRebaseMerge := jBool ps "allow_rebase_merge",
    AllowAutoMerge := jBool ps "allow_auto_merge",
    DeleteBranchOnMerge := jBool ps "delete_branch_on_merge",
    HasIssues := jBool ps "has_issues",
    HasProjects := jBool ps "has_projects",
    HasWiki := jBool ps "has_wiki",
    HasDownloads := jBool ps "has_downloads" }

/-- Decode `Label` from JSON. -/
def labelOfJson (v : JValue) : Label :=
  let ps := jFields v
  { Name := jStr ps "name", Color := jStr ps "color",
    Description := jStr ps "description" }

/-- Decode `Milestone` from JSON. -/
def milestoneOfJson (v : JValue) : Milestone :=
  let ps := jFields v
  { Title := jStr ps "title", Description := jStr ps "description",
    State := jStr ps "state", DueOn := jStr ps "due_on" }

/-- Decode `GovernanceConfig` from JSON. -/
def govOfJson (v : JValue) : GovernanceConfig :=
  let ps := jFields v
  { Repository := repoInfoOfJson ((jget ps "repository").getD (.obj [])),
    Rulesets := jArrWith rulesetOfJson ps "rulesets",
    RequiredChecks := jArrWith jStrElem ps "required_checks",
    Collaborators := jArrWith collaboratorOfJson ps "collaborators",
    Teams := jArrWith teamOfJson ps "teams",
    SecuritySettings := securityOfJson ((jget ps "security_settings").getD (.obj [])),
    RepoSettings := repoSettingsOfJson ((jget ps "repository_settings").getD (.obj [])),
    IssueLabels := jArrWith labelOfJson ps "issue_labels",
    Milestones := jArrWith milestoneOfJson ps "milestones" }

/-! ## YAML document model

`outputYAML` encodes the record with `gopkg.in/yaml.v3`.  The structs
carry only `json` tags, which yaml.v3 does not read: every struct field is
therefore encoded under its Go field name lowercased, in declaration
order, and nothing is omitted (there is no `yaml:",omitempty"` tag), so an
empty slice is emitted as an empty sequence. -/

/-- YAML encoding of `RepoInfo`. -/
def repoInfoToYaml (r : RepoInfo) : JValue :=
  .obj [("owner", .str r.Owner), ("name", .str r.Name)]

/-- YAML encoding of `Ruleset`. -/
def rulesetToYaml (r : Ruleset) : JValue :=
  .obj [("name", .str r.Name),
        ("pattern", .str r.Pattern),
        ("enforceadmins", .bool r.EnforceAdmins),
        ("requiredstatuschecks", .arr (r.RequiredStatusChecks.map JValue.str)),
        ("requiredpullrequestreviews", .bool r.RequiredPullRequestReviews),
        ("requiredapprovingreviewcount", .int r.RequiredApprovingReviewCount),
        ("dismissstalereviews", .bool r.DismissStaleReviews),
        ("requirecodeownerreviews", .bool r.RequireCodeOwnerReviews),
        ("requiredlinearhistory", .bool r.RequiredLinearHistory),
        ("allowforcepushes", .bool r.AllowForcePushes),
        ("allowdeletions", .bool r.AllowDeletions),
        ("requiredconversationresolution", .bool r.RequiredConversationResolution)]

/-- YAML encoding of `Collaborator`. -/
def collaboratorToYaml (c : Collaborator) : JValue :=
  .obj [("login", .str c.Login), ("permission", .str c.Permission),
        ("type", .str c.«Type»)]

/-- YAML encoding of `Team`. -/
def teamToYaml (t : Team) : JValue :=
  .obj [("name", .str t.Name), ("slug", .str t.Slug), ("permission", .str t.Permission)]

/-- YAML encoding of `SecuritySettings`. -/
def securityToYaml (s : SecuritySettings) : JValue :=
  .obj [("vulnerabilityalerts", .bool s.VulnerabilityAlerts),
        ("automatedsecurityfixes", .bool s.AutomatedSecurityFixes),
        ("secretscanning", .bool s.SecretScanning),
        ("secretscanningpushprotection", .bool s.SecretScanningPushProtection),
        ("dependencygraphenabled", .bool s.DependencyGraphEnabled)]

/-- YAML encoding of `RepositorySettings`. -/
def repoSettingsToYaml (s : RepositorySettings) : JValue :=
  .obj [("private", .bool s.Private),
        ("archived", .bool s.Archived),
        ("disabled", .bool s.Disabled),
        ("defaultbranch", .str s.DefaultBranch),
        ("allowmergecommit", .bool s.AllowMergeCommit),
        ("allowsquashmerge", .bool s.AllowSquashMerge),
        ("allowrebasemerge", .bool s.AllowRebaseMerge),
        ("allowautomerge", .bool s.AllowAutoMerge),
        ("deletebranchonmerge", .bool s.DeleteBranchOnMerge),
        ("hasissues", .bool s.HasIssues),
        ("hasprojects", .bool s.HasProjects),
        ("haswiki", .bool s.HasWiki),
        ("hasdownloads", .bool s.HasDownloads)]

/-- YAML encoding of `Label`. -/
def labelToYaml (l : Label) : JValue :=
  .obj [("name", .str l.Name), ("color", .str l.Color),
        ("description", .str l.Description)]

/-- YAML encoding of `Milestone`. -/
def milestoneToYaml (m : Milestone) : JValue :=
  .obj [("title", .str m.Title), ("description", .str m.Description),
        ("state", .str m.State), ("dueon", .str m.DueOn)]

/-- Top-level YAML fields of `GovernanceConfig`: every field present, keys
lowercased from the Go field names. -/
def govToYamlPairs (g : GovernanceConfig) : List (String × JValue) :=
  [("repository", repoInfoToYaml g.Repository),
   ("rulesets", .arr (g.Rulesets.map rulesetToYaml)),
   ("requiredchecks", .arr (g.RequiredChecks.map JValue.str)),
   ("collaborators", .arr (g.Collaborators.map collaboratorToYaml)),
   ("teams", .arr (g.Teams.map teamToYaml)),
   ("securitysettings", securityToYaml g.SecuritySettings),
   ("reposettings", repoSettingsToYaml g.RepoSettings),
   ("issuelabels", .arr (g.IssueLabels.map labelToYaml)),
   ("milestones", .arr (g.Milestones.map milestoneToYaml))]

/-- YAML document written by `outputYAML`. -/
def govToYaml (g : GovernanceConfig) : JValue :=
  .obj (govToYamlPairs g)

/-- Decode `RepoInfo` from YAML. -/
def repoInfoOfYaml (v : JValue) : RepoInfo :=
  let ps := jFields v
  { Owner := jStr ps "owner", Name := jStr ps "name" }

/-- Decode `Ruleset` from YAML. -/
def rulesetOfYaml (v : JValue) : Ruleset :=
  let ps := jFields v
  { Name := jStr ps "name",
    Pattern := jStr ps "pattern",
    EnforceAdmins := jBool ps "enforceadmins",
    RequiredStatusChecks := jArrWith jStrElem ps "requiredstatuschecks",
    RequiredPullRequestReviews := jBool ps "requiredpullrequestreviews",
    RequiredApprovingReviewCount := jInt ps "requiredapprovingreviewcount",
    DismissStaleReviews := jBool ps "dismissstalereviews",
    RequireCodeOwnerReviews := jBool ps "requirecodeownerreviews",
    RequiredLinearHistory := jBool ps "requiredlinearhistory",
    AllowForcePushes := jBool ps "allowforcepushes",
    AllowDeletions := jBool ps "allowdeletions",
    RequiredConversationResolution := jBool ps "requiredconversationresolution" }

/-- Decode `Collaborator` from YAML. -/
def collaboratorOfYaml (v : JValue) : Collaborator :=
  let ps := jFields v
  { Login := jStr ps "login", Permission := jStr ps "permission",
    «Type» := jStr ps "type" }

/-- Decode `Team` from YAML. -/
def teamOfYaml (v : JValue) : Team :=
  let ps := jFields v
  { Name := jStr ps "name", Slug := jStr ps "slug", Permission := jStr ps "permission" }

/-- Decode `SecuritySettings` from YAML. -/
def securityOfYaml (v : JValue) : SecuritySettings :=
  let ps := jFields v
  { VulnerabilityAlerts := jBool ps "vulnerabilityalerts",
    AutomatedSecurityFixes := jBool ps "automatedsecurityfixes",
    SecretScanning := jBool ps "secretscanning",
    SecretScanningPushProtection := jBool ps "secretscanningpushprotection",
    DependencyGraphEnabled := jBool ps "dependencygraphenabled" }

/-- Decode `RepositorySettings` from YAML. -/
def repoSettingsOfYaml (v : JValue) : RepositorySettings :=
  let ps := jFields v
  { Private := jBool ps "private",
    Archived := jBool ps "archived",
    Disabled := jBool ps "disabled",
    DefaultBranch := jStr ps "defaultbranch",
    AllowMergeCommit := jBool ps "allowmergecommit",
    AllowSquashMerge := jBool ps "allowsquashmerge",
    AllowRebaseMerge := jBool ps "allowrebasemerge",
    AllowAutoMerge := jBool ps "allowautomerge",
    DeleteBranchOnMerge := jBool ps "deletebranchonmerge",
    HasIssues := jBool ps "hasissues",
    HasProjects := jBool ps "hasprojects",
    HasWiki := jBool ps "haswiki",
    HasDownloads := jBool ps "hasdownloads" }

/-- Decode `Label` from YAML. -/
def labelOfYaml (v : JValue) : Label :=
  let ps := jFields v
  { Name := jStr ps "name", Color := jStr ps "color",
    Description := jStr ps "description" }

/-- Decode `Milestone` from YAML. -/
def milestoneOfYaml (v : JValue) : Milestone :=
  let ps := jFields v
  { Title := jStr ps "title", Description := jStr ps "description",
    State := jStr ps "state", DueOn := jStr ps "dueon" }

/-- Decode `GovernanceConfig` from YAML. -/
def govOfYaml (v : JValue) : GovernanceConfig :=
  let ps := jFields v
  { Repository := repoInfoOfYaml ((jget ps "repository").getD (.obj [])),
    Rulesets := jArrWith rulesetOfYaml ps "rulesets",
    RequiredChecks := jArrWith jStrElem ps "requiredchecks",
    Collaborators := jArrWith collaboratorOfYaml ps "collaborators",
    Teams := jArrWith teamOfYaml ps "teams",
    SecuritySettings := securityOfYaml ((jget ps "securitysettings").getD (.obj [])),
    RepoSettings := repoSettingsOfYaml ((jget ps "reposettings").getD (.obj [])),
    IssueLabels := jArrWith labelOfYaml ps "issuelabels",
    Milestones := jArrWith milestoneOfYaml ps "milestones" }

/-! ## Table renderer

`outputTable` writes a tree rendering with one `fmt.Printf` per chunk; the
model collects the chunks, in order, into a list of strings.  The loop-
local connector variable (`"├─"`, switched to `"└─"` for the last element)
becomes `connectorMark i n`. -/

/-- Connector glyph for element `i` of a list of length `n`: the last
element gets the closing connector. -/
def connectorMark (i n : Nat) : String :=
  if i = n - 1 then "└─" else "├─"

/-- Milestone state glyph (source lines: `state := "🟢"; if
milestone.State == "closed" { state = "🔴" }`). -/
def milestoneStateIcon (state : String) : String :=
  if state = "closed" then "🔴" else "🟢"

/-- Settings section of the table (guarded by the section filter). -/
def settingsChunks (s : RepositorySettings) : List String :=
  ["⚙️  Repository Settings\n",
   "├─ Private: " ++ boolToIcon s.Private ++ "\n",
   "├─ Archived: " ++ boolToIcon s.Archived ++ "\n",
   "├─ Default Branch: " ++ s.DefaultBranch ++ "\n",
   "├─ Issues: " ++ boolToIcon s.HasIssues ++ "\n",
   "├─ Projects: " ++ boolToIcon s.HasProjects ++ "\n",
   "├─ Wiki: " ++ boolToIcon s.HasWiki ++ "\n",
   "├─ Allow Merge Commit: " ++ boolToIcon s.AllowMergeCommit ++ "\n",
   "├─ Allow Squash Merge: " ++ boolToIcon s.AllowSquashMerge ++ "\n",
   "├─ Allow Rebase Merge: " ++ boolToIcon s.AllowRebaseMerge ++ "\n",
   "└─ Delete Branch on Merge: " ++ boolToIcon s.DeleteBranchOnMerge ++ "\n\n"]

/-- Security section of the table. -/
def securityChunks (s : SecuritySettings) : List String :=
  ["🔒 Security Settings\n",
   "├─ Vulnerability Alerts: " ++ boolToIcon s.VulnerabilityAlerts ++ "\n",
   "├─ Automated Security Fixes: " ++ boolToIcon s.AutomatedSecurityFixes ++ "\n",
   "├─ Secret Scanning: " ++ boolToIcon s.SecretScanning ++ "\n",
   "├─ Secret Scanning Push Protection: " ++ boolToIcon s.SecretScanningPushProtection ++ "\n",
   "└─ Dependency Graph: " ++ boolToIcon s.DependencyGraphEnabled ++ "\n\n"]

/-- Chunks for the required-status-checks sub-list of one ruleset. -/
def rulesetChecksChunks (checks : List String) : List String :=
  if checks.length > 0 then
    ["   └─ Required Status Checks:\n"]
    ++ checks.enum.map (fun p =>
         "      " ++ connectorMark p.1 checks.length ++ " " ++ p.2 ++ "\n")
  else
    ["   └─ Required Status Checks: None\n"]

/-- Chunks for one ruleset entry (index `i` of `n`). -/
def rulesetEntryChunks (i n : Nat) (r : Ruleset) : List String :=
  [connectorMark i n ++ " " ++ r.Name ++ " (Pattern: " ++ r.Pattern ++ ")\n",
   "   ├─ Enforce Admins: " ++ boolToIcon r.EnforceAdmins ++ "\n",
   "   ├─ Require PR Reviews: " ++ boolToIcon r.RequiredPullRequestReviews ++ "\n"]
  ++ (if r.RequiredPullRequestReviews then
        ["   │  ├─ Required Approving Reviews: "
           ++ toString r.RequiredApprovingReviewCount ++ "\n",
         "   │  ├─ Dismiss Stale Reviews: " ++ boolToIcon r.DismissStaleReviews ++ "\n",
         "   │  └─ Require Code Owner Reviews: "
           ++ boolToIcon r.RequireCodeOwnerReviews ++ "\n"]
      else [])
  ++ ["   ├─ Required Linear History: " ++ boolToIcon r.RequiredLinearHistory ++ "\n",
      "   ├─ Allow Force Pushes: " ++ boolToIcon r.AllowForcePushes ++ "\n",
      "   ├─ Allow Deletions: " ++ boolToIcon r.AllowDeletions ++ "\n",
      "   ├─ Require Conversation Resolution: "
        ++ boolToIcon r.RequiredConversationResolution ++ "\n"]
  ++ rulesetChecksChunks r.RequiredStatusChecks
  ++ (if i < n - 1 then ["   \n"] else [])

/-- Rulesets section of the table. -/
def rulesetsChunks (rs : List Ruleset) : List String :=
  ["📜 Repository Rulesets\n"]
  ++ rs.enum.flatMap (fun p => rulesetEntryChunks p.1 rs.length p.2)
  ++ ["\n"]

/-- Collaborators section of the table. -/
def collaboratorsChunks (cs : List Collaborator) : List String :=
  ["👥 Collaborators (" ++ toString cs.length ++ ")\n"]
  ++ cs.enum.map (fun p =>
       connectorMark p.1 cs.length ++ " " ++ p.2.Login ++ " (" ++ p.2.«Type» ++ ") - "
         ++ permissionToIcon p.2.Permission ++ "\n")
  ++ ["\n"]

/-- Teams section of the table. -/
def teamsChunks (ts : List Team) : List String :=
  ["Teams (" ++ toString ts.length ++ ")\n"]
  ++ ts.enum.map (fun p =>
       connectorMark p.1 ts.length ++ " " ++ p.2.Name ++ " (@" ++ p.2.Slug ++ ") - "
         ++ permissionToIcon p.2.Permission ++ "\n")
  ++ ["\n"]

/-- Labels section of the table. -/
def labelsChunks (ls : List Label) : List String :=
  ["🏷️  Labels (" ++ toString ls.length ++ ")\n"]
  ++ ls.enum.map (fun p =>
       connectorMark p.1 ls.length ++ " " ++ p.2.Name ++ " #" ++ p.2.Color
         ++ (if p.2.Description ≠ "" then " (" ++ p.2.Description ++ ")" else "")
         ++ "\n")
  ++ ["\n"]

/-- Milestones section of the table. -/
def milestonesChunks (ms : List Milestone) : List String :=
  ["🎯 Milestones (" ++ toString ms.length ++ ")\n"]
  ++ ms.enum.flatMap (fun p =>
       [connectorMark p.1 ms.length ++ " " ++ milestoneStateIcon p.2.State ++ " "
          ++ p.2.Title
          ++ (if p.2.DueOn ≠ "" then " (Due: " ++ p.2.DueOn ++ ")" else "")
          ++ "\n"]
       ++ (if p.2.Description ≠ "" then ["   " ++ p.2.Description ++ "\n"] else []))
  ++ ["\n"]

/-- `outputTable` from the source: the full ordered list of chunks written
to standard output; filtered sections and empty list sections are skipped. -/
def outputTable (g : GovernanceConfig) (sectionsFilter : List String) : List String :=
  ["Repository Governance Report\n",
   "═══════════════════════════\n\n",
   "📁 Repository: " ++ g.Repository.Owner ++ "/" ++ g.Repository.Name ++ "\n\n"]
  ++ (if shouldIncludeSectionOutput "settings" sectionsFilter then
        settingsChunks g.RepoSettings else [])
  ++ (if shouldIncludeSectionOutput "security" sectionsFilter then
        securityChunks g.SecuritySettings else [])
  ++ (if g.Rulesets.length > 0 && shouldIncludeSectionOutput "rulesets" sectionsFilter then
        rulesetsChunks g.Rulesets else [])
  ++ (if g.Collaborators.length > 0
        && shouldIncludeSectionOutput "collaborators" sectionsFilter then
        collaboratorsChunks g.Collaborators else [])
  ++ (if g.Teams.length > 0 && shouldIncludeSectionOutput "teams" sectionsFilter then
        teamsChunks g.Teams else [])
  ++ (if g.IssueLabels.length > 0 && shouldIncludeSectionOutput "labels" sectionsFilter then
        labelsChunks g.IssueLabels else [])
  ++ (if g.Milestones.length > 0 && shouldIncludeSectionOutput "milestones" sectionsFilter then
        milestonesChunks g.Milestones else [])

/-! ## Renderer dispatch -/

/-- One chunk written to standard output: a JSON document, a YAML
document, or a raw table chunk. -/
inductive OutChunk where
  | json (v : JValue)
  | yaml (v : JValue)
  | raw (s : String)

/-- `strings.ToLower`: lowercase every character of the string. -/
def toLowerGo (s : String) : String :=
  String.mk (s.data.map Char.toLower)

/-- `outputGovernance` from the source: dispatch on
`strings.ToLower(outputFormat)`.  The result is the pair of (chunks
written to standard output, error): the unsupported-format branch errors
without writing. -/
def outputGovernance (outputFormat : String) (g : GovernanceConfig)
    (sectionsFilter : List String) : List OutChunk × Option String :=
  let f := toLowerGo outputFormat
  if f = "json" then ([.json (govToJson g)], none)
  else if f = "yaml" ∨ f = "yml" then ([.yaml (govToYaml g)], none)
  else if f = "table" then ((outputTable g sectionsFilter).map OutChunk.raw, none)
  else ([], some ("unsupported output format: " ++ outputFormat))

/-! ## Aggregator and CLI pipeline

`inspectRepository` constructs a REST client, builds the initial record,
then runs the seven facet collectors sequentially; every collector error
is swallowed, gated by `verbose` into a stderr warning.  The collector
bodies (`getRepositorySettings`, `getRulesets`, ...) are not under `src/`,
so each call's outcome is an oracle parameter. -/

/-- Modelled from the spec: the outcome of each facet collector
(`getRepositorySettings`, `getRulesets`, `getCollaborators`, `getTeams`,
`getSecuritySettings`, `getLabels`, `getMilestones` are not under `src/`).
Per §4.3 a collector performs one read-only API query and either succeeds
with its facet value — which overwrites the record's field — or fails,
leaving the field unmodified. -/
structure CollectorResults where
  settings : Except String RepositorySettings
  rulesets : Except String (List Ruleset)
  collaborators : Except String (List Collaborator)
  teams : Except String (List Team)
  security : Except String SecuritySettings
  labels : Except String (List Label)
  milestones : Except String (List Milestone)

/-- Modelled from the spec: after the collector calls, `inspectRepository`
reassigns the record to a fixed mock `GovernanceConfig` literal ("fixed
example data", spec §6/§9).  The literal's opening lines are not in the
staged source (the fragment starts at its `Collaborators` field), so the
fields it may set before that point are held abstract here; every visible
field of the literal is transcribed exactly in `mockGovernance`. -/
structure MockGap where
  Repository : RepoInfo
  Rulesets : List Ruleset
  RequiredChecks : List String
  IssueLabels : List Label
  Milestones : List Milestone

/-- The mock collaborators of the literal. -/
def mockCollaborators : List Collaborator :=
  [{ Login := "maintainer1", Permission := "admin", «Type» := "User" },
   { Login := "developer1", Permission := "write", «Type» := "User" }]

/-- The mock teams of the literal. -/
def mockTeams : List Team :=
  [{ Name := "Core Team", Slug := "core-team", Permission := "admin" },
   { Name := "Contributors", Slug := "contributors", Permission := "write" },
   { Name := "Reviewers", Slug := "reviewers", Permission := "triage" }]

/-- The mock security settings of the literal. -/
def mockSecuritySettings : SecuritySettings :=
  { VulnerabilityAlerts := true, AutomatedSecurityFixes := true,
    SecretScanning := true, SecretScanningPushProtection := true,
    DependencyGraphEnabled := true }

/-- The mock repository settings of the literal; fields the literal does
not mention keep their Go zero value. -/
def mockRepoSettings : RepositorySettings :=
  { Private := false, Archived := false, Disabled := false,
    DefaultBranch := "main", AllowMergeCommit := true,
    AllowSquashMerge := true, AllowRebaseMerge := true,
    AllowAutoMerge := false, DeleteBranchOnMerge := true, HasIssues := true,
    HasProjects := false, HasWiki := false, HasDownloads := false }

/-- The mock record that `inspectRepository` assigns over the
collector-populated one: the fields visible in the staged literal are
fixed, the fields of its unseen opening lines come from the gap. -/
def mockGovernance (gap : MockGap) : GovernanceConfig :=
  { Repository := gap.Repository,
    Rulesets := gap.Rulesets,
    RequiredChecks := gap.RequiredChecks,
    Collaborators := mockCollaborators,
    Teams := mockTeams,
    SecuritySettings := mockSecuritySettings,
    RepoSettings := mockRepoSettings,
    IssueLabels := gap.IssueLabels,
    Milestones := gap.Milestones }

/-- The verbose-gated note printed after the mock reassignment. -/
def mockDataNote : String :=
  "Note: Using mock data for demonstration. In production, this would fetch real data from GitHub API.\n"

/-- One collector call's effect on the record: overwrite the facet field
on success, leave the record unchanged on error. -/
def applyStep {α : Type} (g : GovernanceConfig) (res : Except String α)
    (set : α → GovernanceConfig → GovernanceConfig) : GovernanceConfig :=
  match res with
  | .ok v => set v g
  | .error _ => g

/-- One collector call's stderr diagnostics: a warning on error, and only
when verbose mode is enabled. -/
def stepWarn {α : Type} (res : Except String α) (what : String)
    (verbose : Bool) : List String :=
  match res with
  | .ok _ => []
  | .error e =>
    if verbose then ["Warning: failed to get " ++ what ++ ": " ++ e ++ "\n"]
    else []

/-- External collaborators of one run: REST-client construction, the
current-repository resolution response, the collector outcomes, and the
unseen opening fields of the mock literal. -/
structure Env where
  clientErr : Option String
  currentRepo : Except String String
  collectors : CollectorResults
  mockGap : MockGap

/-- `inspectRepository` from the source, after successful client
construction: the settings collector runs first and unconditionally, then
each remaining facet collector runs iff the section filter includes its
name, in the order rulesets, collaborators, teams, security, labels,
milestones.  The record the collectors populated is then unconditionally
reassigned to the fixed mock `GovernanceConfig` literal, a verbose-gated
mock-data note is printed, and the mock record is returned.  Returns
(record, stderr lines, names of attempted collector sections). -/
def inspectRepositoryGo (res : CollectorResults) (gap : MockGap)
    (sections : List String) (verbose : Bool) (owner repo : String) :
    GovernanceConfig × List String × List String :=
  let g0 := initialGovernance owner repo
  let g1 := applyStep g0 res.settings (fun v g => { g with RepoSettings := v })
  let g2 := if shouldIncludeSection sections "rulesets" then
              applyStep g1 res.rulesets (fun v g => { g with Rulesets := v })
            else g1
  let g3 := if shouldIncludeSection sections "collaborators" then
              applyStep g2 res.collaborators (fun v g => { g with Collaborators := v })
            else g2
  let g4 := if shouldIncludeSection sections "teams" then
              applyStep g3 res.teams (fun v g => { g with Teams := v })
            else g3
  let g5 := if shouldIncludeSection sections "security" then
              applyStep g4 res.security (fun v g => { g with SecuritySettings := v })
            else g4
  let g6 := if shouldIncludeSection sections "labels" then
              applyStep g5 res.labels (fun v g => { g with IssueLabels := v })
            else g5
  let g7 := if shouldIncludeSection sections "milestones" then
              applyStep g6 res.milestones (fun v g => { g with Milestones := v })
            else g6
  let warns :=
    stepWarn res.settings "repository settings" verbose
    ++ (if shouldIncludeSection sections "rulesets" then
          stepWarn res.rulesets "rulesets" verbose else [])
    ++ (if shouldIncludeSection sections "collaborators" then
          stepWarn res.collaborators "collaborators" verbose else [])
    ++ (if shouldIncludeSection sections "teams" then
          stepWarn res.teams "teams" verbose else [])
    ++ (if shouldIncludeSection sections "security" then
          stepWarn res.security "security settings" verbose else [])
    ++ (if shouldIncludeSection sections "labels" then
          stepWarn res.labels "labels" verbose else [])
    ++ (if shouldIncludeSection sections "milestones" then
          stepWarn res.milestones "milestones" verbose else [])
    ++ (if verbose then [mockDataNote] else [])
  let attempts :=
    ["settings"]
    ++ (if shouldIncludeSection sections "rulesets" then ["rulesets"] else [])
    ++ (if shouldIncludeSection sections "collaborators" then ["collaborators"] else [])
    ++ (if shouldIncludeSection sections "teams" then ["teams"] else [])
    ++ (if shouldIncludeSection sections "security" then ["security"] else [])
    ++ (if shouldIncludeSection sections "labels" then ["labels"] else [])
    ++ (if shouldIncludeSection sections "milestones" then ["milestones"] else [])
  let _ := g7
  (mockGovernance gap, warns, attempts)

/-- `strings.Split(repo, "/")` on the character list of the argument:
splits around every `'/'`. -/
def splitSlash : List Char → List (List Char)
  | [] => [[]]
  | c :: cs =>
    match splitSlash cs with
    | [] => [[]]
    | h :: t => if c = '/' then [] :: h :: t else (c :: h) :: t

/-- `getCurrentRepo` from the source: construct a client, then query the
`user/repos` listing endpoint for the authenticated user.  Returns the
resolution result and the hosting-API calls performed. -/
def getCurrentRepo (env : Env) : Except String String × List String :=
  match env.clientErr with
  | some e => (.error e, [])
  | none => (env.currentRepo, ["user/repos"])

/-- Observable outcome of one CLI run. -/
structure RunOut where
  err : Option String
  stdout : List OutChunk
  stderr : List String
  apiCalls : List String

/-- `runInspect` from the source: resolve the repository argument, check
the `owner/repo` shape, emit the verbose header, aggregate, and render.
The error component is the `error` return value handed back to the
command runner. -/
def runInspect (env : Env) (args : List String) (sections : List String)
    (outputFormat : String) (verbose : Bool) : RunOut :=
  let repoRes : Except String String × List String :=
    match args with
    | [] =>
      let r := getCurrentRepo env
      (match r.1 with
       | .error e =>
         .error ("no repository specified and could not determine current repository: " ++ e)
       | .ok s => .ok s,
       r.2)
    | a :: _ => (.ok a, [])
  match repoRes with
  | (.error e, calls) => { err := some e, stdout := [], stderr := [], apiCalls := calls }
  | (.ok repo, calls) =>
    match splitSlash repo.data with
    | [ownerChars, nameChars] =>
      let owner := String.mk ownerChars
      let name := String.mk nameChars
      let vLine := if verbose then
          ["Inspecting repository: " ++ owner ++ "/" ++ name ++ "\n"]
        else []
      match env.clientErr with
      | some e =>
        { err := some ("failed to inspect repository: " ++ e),
          stdout := [], stderr := vLine, apiCalls := calls }
      | none =>
        let r := inspectRepositoryGo env.collectors env.mockGap sections verbose owner name
        let out := outputGovernance outputFormat r.1 sections
        { err := out.2, stdout := out.1, stderr := vLine ++ r.2.1,
          apiCalls := calls ++ r.2.2 }
    | _ =>
      { err := some "repository must be in format 'owner/repo'",
        stdout := [], stderr := [], apiCalls := calls }

/-- Final run outcome: stdout chunks, stderr lines, exit code, API calls. -/
structure RunResult where
  stdout : List OutChunk
  stderr : List String
  exitCode : Nat
  apiCalls : List String

/-- `main` from the source: execute the command; a returned error is
printed to standard error prefixed `Error: ` and the process exits 1,
otherwise it exits 0. -/
def mainRun (env : Env) (args : List String) (sections : List String)
    (outputFormat : String) (verbose : Bool) : RunResult :=
  let r := runInspect env args sections outputFormat verbose
  match r.err with
  | some e =>
    { stdout := r.stdout, stderr := r.stderr ++ ["Error: " ++ e ++ "\n"],
      exitCode := 1, apiCalls := r.apiCalls }
  | none =>
    { stdout := r.stdout, stderr := r.stderr, exitCode := 0, apiCalls := r.apiCalls }

/-! ## Round-trip lemmas for the encoders and decoders -/

@[simp]
theorem jStrElem_str (s : String) : jStrElem (.str s) = s := rfl

/-- Mapping an encoder then its decoder over a list is the identity when
the pair round-trips pointwise. -/
theorem map_comp_id {α β : Type} {f : α → β} {g : β → α}
    (h : ∀ a, g (f a) = a) (l : List α) : l.map (g ∘ f) = l := by
  induction l with
  | nil => rfl
  | cons a t ih => simp [Function.comp, h, ih]

@[simp]
theorem map_jStrElem_str (l : List String) :
    l.map (jStrElem ∘ JValue.str) = l :=
  map_comp_id jStrElem_str l

/-- Looking a key up past an `omitempty` field chunk: a hit when the
chunk is present and keys match, otherwise the lookup continues. -/
@[simp]
theorem jget_omitPair_append (z : Bool) (key k : String) (v : JValue)
    (rest : List (String × JValue)) :
    jget (omitPair z key v ++ rest) k =
      if z then jget rest k
      else if key = k then some v else jget rest k := by
  cases z <;> by_cases h : key = k <;> simp [omitPair, jget, h]

/-- Looking a key up in a lone `omitempty` field chunk. -/
@[simp]
theorem jget_omitPair (z : Bool) (key k : String) (v : JValue) :
    jget (omitPair z key v) k =
      if z then none else if key = k then some v else none := by
  cases z <;> by_cases h : key = k <;> simp [omitPair, jget, h]

@[simp]
theorem jArrDecode_ite {α : Type} (dec : JValue → α) (c : Prop) [Decidable c]
    (a b : Option JValue) :
    jArrDecode dec (if c then a else b) =
      if c then jArrDecode dec a else jArrDecode dec b := by
  split <;> rfl

@[simp]
theorem jArrDecode_none {α : Type} (dec : JValue → α) :
    jArrDecode dec none = [] := rfl

@[simp]
theorem jArrDecode_some_arr {α : Type} (dec : JValue → α) (l : List JValue) :
    jArrDecode dec (some (.arr l)) = l.map dec := rfl

@[simp]
theorem ite_isEmpty_self {α : Type} (l : List α) :
    (if l.isEmpty then ([] : List α) else l) = l := by
  cases l <;> simp

@[simp]
theorem repoInfo_json_roundtrip (r : RepoInfo) :
    repoInfoOfJson (repoInfoToJson r) = r := by
  cases r
  simp [repoInfoToJson, repoInfoOfJson, jFields, jStr, jget]

@[simp]
theorem ruleset_json_roundtrip (r : Ruleset) :
    rulesetOfJson (rulesetToJson r) = r := by
  cases r with
  | mk n p ea checks prr cnt dsr rcor rlh afp ad rcr =>
    cases checks <;>
      simp [rulesetToJson, rulesetOfJson, jFields, jStr, jBool, jInt, jArrWith,
            jget, omitPair]

@[simp]
theorem collaborator_json_roundtrip (c : Collaborator) :
    collaboratorOfJson (collaboratorToJson c) = c := by
  cases c
  simp [collaboratorToJson, collaboratorOfJson, jFields, jStr, jget]

@[simp]
theorem team_json_roundtrip (t : Team) :
    teamOfJson (teamToJson t) = t := by
  cases t
  simp [teamToJson, teamOfJson, jFields, jStr, jget]

@[simp]
theorem security_json_roundtrip (s : SecuritySettings) :
    securityOfJson (securityToJson s) = s := by
  cases s
  simp [securityToJson, securityOfJson, jFields, jBool, jget]

@[simp]
theorem repoSettings_json_roundtrip (s : RepositorySettings) :
    repoSettingsOfJson (repoSettingsToJson s) = s := by
  cases s
  simp [repoSettingsToJson, repoSettingsOfJson, jFields, jStr, jBool, jget]

@[simp]
theorem label_json_roundtrip (l : Label) :
    labelOfJson (labelToJson l) = l := by
  cases l with
  | mk n c d =>
    by_cases h : d = "" <;>
      simp [labelToJson, labelOfJson, jFields, jStr, jget, omitPair, h]

@[simp]
theorem milestone_json_roundtrip (m : Milestone) :
    milestoneOfJson (milestoneToJson m) = m := by
  cases m with
  | mk t d s due =>
    by_cases hd : d = "" <;> by_cases hdue : due = "" <;>
      simp [milestoneToJson, milestoneOfJson, jFields, jStr, jget, omitPair, hd, hdue]

@[simp]
theorem repoInfo_yaml_roundtrip (r : RepoInfo) :
    repoInfoOfYaml (repoInfoToYaml r) = r := by
  cases r
  simp [repoInfoToYaml, repoInfoOfYaml, jFields, jStr, jget]

@[simp]
theorem ruleset_yaml_roundtrip (r : Ruleset) :
    rulesetOfYaml (rulesetToYaml r) = r := by
  cases r
  simp [rulesetToYaml, rulesetOfYaml, jFields, jStr, jBool, jInt, jArrWith, jget]

@[simp]
theorem collaborator_yaml_roundtrip (c : Collaborator) :
    collaboratorOfYaml (collaboratorToYaml c) = c := by
  cases c
  simp [collaboratorToYaml, collaboratorOfYaml, jFields, jStr, jget]

@[simp]
theorem team_yaml_roundtrip (t : Team) :
    teamOfYaml (teamToYaml t) = t := by
  cases t
  simp [teamToYaml, teamOfYaml, jFields, jStr, jget]

@[simp]
theorem security_yaml_roundtrip (s : SecuritySettings) :
    securityOfYaml (securityToYaml s) = s := by
  cases s
  simp [securityToYaml, securityOfYaml, jFields, jBool, jget]

@[simp]
theorem repoSettings_yaml_roundtrip (s : RepositorySettings) :
    repoSettingsOfYaml (repoSettingsToYaml s) = s := by
  cases s
  simp [repoSettingsToYaml, repoSettingsOfYaml, jFields, jStr, jBool, jget]

@[simp]
theorem label_yaml_roundtrip (l : Label) :
    labelOfYaml (labelToYaml l) = l := by
  cases l
  simp [labelToYaml, labelOfYaml, jFields, jStr, jget]

@[simp]
theorem milestone_yaml_roundtrip (m : Milestone) :
    milestoneOfYaml (milestoneToYaml m) = m := by
  cases m
  simp [milestoneToYaml, milestoneOfYaml, jFields, jStr, jget]

@[simp]
theorem map_ruleset_json (l : List Ruleset) :
    l.map (rulesetOfJson ∘ rulesetToJson) = l :=
  map_comp_id ruleset_json_roundtrip l

@[simp]
theorem map_collaborator_json (l : List Collaborator) :
    l.map (collaboratorOfJson ∘ collaboratorToJson) = l :=
  map_comp_id collaborator_json_roundtrip l

@[simp]
theorem map_team_json (l : List Team) :
    l.map (teamOfJson ∘ teamToJson) = l :=
  map_comp_id team_json_roundtrip l

@[simp]
theorem map_label_json (l : List Label) :
    l.map (labelOfJson ∘ labelToJson) = l :=
  map_comp_id label_json_roundtrip l

@[simp]
theorem map_milestone_json (l : List Milestone) :
    l.map (milestoneOfJson ∘ milestoneToJson) = l :=
  map_comp_id milestone_json_roundtrip l

@[simp]
theorem map_ruleset_yaml (l : List Ruleset) :
    l.map (rulesetOfYaml ∘ rulesetToYaml) = l :=
  map_comp_id ruleset_yaml_roundtrip l

@[simp]
theorem map_collaborator_yaml (l : List Collaborator) :
    l.map (collaboratorOfYaml ∘ collaboratorToYaml) = l :=
  map_comp_id collaborator_yaml_roundtrip l

@[simp]
theorem map_team_yaml (l : List Team) :
    l.map (teamOfYaml ∘ teamToYaml) = l :=
  map_comp_id team_yaml_roundtrip l

@[simp]
theorem map_label_yaml (l : List Label) :
    l.map (labelOfYaml ∘ labelToYaml) = l :=
  map_comp_id label_yaml_roundtrip l

@[simp]
theorem map_milestone_yaml (l : List Milestone) :
    l.map (milestoneOfYaml ∘ milestoneToYaml) = l :=
  map_comp_id milestone_yaml_roundtrip l

/-- Decoding an encoded governance record from its JSON document restores
the record exactly. -/
theorem gov_json_roundtrip (g : GovernanceConfig) :
    govOfJson (govToJson g) = g := by
  cases g
  simp [govToJson, govToJsonPairs, govOfJson, jFields, jget, jArrWith, jStr]

/-- Decoding an encoded governance record from its YAML document restores
the record exactly. -/
theorem gov_yaml_roundtrip (g : GovernanceConfig) :
    govOfYaml (govToYaml g) = g := by
  cases g
  simp [govToYaml, govToYamlPairs, govOfYaml, jFields, jget, jArrWith]

/-! ## Properties of the argument splitter -/

/-- `strings.Split` yields one more part than there are separators. -/
theorem splitSlash_length (cs : List Char) :
    (splitSlash cs).length = cs.count '/' + 1 := by
  induction cs with
  | nil => rfl
  | cons c t ih =>
    cases h : splitSlash t with
    | nil => simp [h] at ih
    | cons a b =>
      rw [h] at ih
      simp only [List.length_cons] at ih
      by_cases hc : c = '/' <;>
        simp only [splitSlash, h, hc, List.count_cons, List.length_cons,
          beq_iff_eq, if_true, if_false, ite_true, ite_false, reduceIte,
          if_pos, if_neg, not_false_eq_true] <;>
        omega

/-- Splitting a slash-free string yields the single whole part. -/
theorem splitSlash_no_slash (cs : List Char) (h : ('/' : Char) ∉ cs) :
    splitSlash cs = [cs] := by
  induction cs with
  | nil => rfl
  | cons c t ih =>
    simp only [List.mem_cons, not_or] at h
    have hc : ¬ c = '/' := fun hcc => h.1 hcc.symm
    simp [splitSlash, ih h.2, hc]

/-- Splitting around the only slash yields exactly the two parts. -/
theorem splitSlash_mid (xs ys : List Char) (hx : ('/' : Char) ∉ xs)
    (hy : ('/' : Char) ∉ ys) :
    splitSlash (xs ++ '/' :: ys) = [xs, ys] := by
  induction xs with
  | nil => simp [splitSlash, splitSlash_no_slash ys hy]
  | cons c t ih =>
    simp only [List.mem_cons, not_or] at hx
    have hc : ¬ c = '/' := fun hcc => hx.1 hcc.symm
    rw [List.cons_append]
    simp [splitSlash, ih hx.2, hc]

/-- Prepending a conditional singleton chunk. -/
theorem ite_singleton_append {α : Type} (c : Prop) [Decidable c] (x : α)
    (rest : List α) :
    (if c then [x] else []) ++ rest = if c then x :: rest else rest := by
  split <;> simp

@[simp]
theorem mk_data (s : String) : String.mk s.data = s := rfl

/-! ## Concrete example data for witnesses -/

/-- A concrete ruleset. -/
def rulesetExample : Ruleset :=
  { Name := "main-protection", Pattern := "main", EnforceAdmins := true,
    RequiredStatusChecks := ["ci"], RequiredPullRequestReviews := true,
    RequiredApprovingReviewCount := 2, DismissStaleReviews := true,
    RequireCodeOwnerReviews := false, RequiredLinearHistory := true,
    AllowForcePushes := false, AllowDeletions := false,
    RequiredConversationResolution := true }

/-- A concrete collaborator. -/
def collaboratorExample : Collaborator :=
  { Login := "maintainer1", Permission := "admin", «Type» := "User" }

/-- Concrete security settings. -/
def securityExample : SecuritySettings :=
  { VulnerabilityAlerts := true, AutomatedSecurityFixes := true,
    SecretScanning := true, SecretScanningPushProtection := true,
    DependencyGraphEnabled := true }

/-- Concrete repository settings. -/
def settingsExample : RepositorySettings :=
  { Private := false, Archived := false, Disabled := false,
    DefaultBranch := "main", AllowMergeCommit := true,
    AllowSquashMerge := true, AllowRebaseMerge := true,
    AllowAutoMerge := false, DeleteBranchOnMerge := true, HasIssues := true,
    HasProjects := false, HasWiki := false, HasDownloads := false }

/-- A concrete label. -/
def labelExample : Label :=
  { Name := "bug", Color := "d73a4a", Description := "Something is not working" }

/-- A concrete milestone. -/
def milestoneExample : Milestone :=
  { Title := "v1.0", Description := "First stable release", State := "open",
    DueOn := "2024-12-31" }

/-- Collector outcomes where only the teams collector fails. -/
def collectorsExample : CollectorResults :=
  { settings := .ok settingsExample,
    rulesets := .ok [rulesetExample],
    collaborators := .ok [collaboratorExample],
    teams := .error "HTTP 403",
    security := .ok securityExample,
    labels := .ok [labelExample],
    milestones := .ok [milestoneExample] }

/-- A concrete instance of the mock literal's unseen opening fields. -/
def mockGapExample : MockGap :=
  { Repository := { Owner := "octo", Name := "hello" },
    Rulesets := [], RequiredChecks := [], IssueLabels := [], Milestones := [] }

/-- A concrete environment: client construction succeeds, no current
repository is resolvable, and only the teams collector fails. -/
def envExample : Env :=
  { clientErr := none,
    currentRepo := .error "no repositories found",
    collectors := collectorsExample,
    mockGap := mockGapExample }

/-! ## Claims -/

/-- C6: serializing a `GovernanceConfig` to JSON and parsing that JSON
back yields a record equal to the original (in the model, equal outright:
the Lean lists do not distinguish Go's nil slice from an empty one), and
the same holds for YAML serialization. -/
theorem c6_serialization_roundtrip (g : GovernanceConfig) :
    govOfJson (govToJson g) = g ∧ govOfYaml (govToYaml g) = g :=
  ⟨gov_json_roundtrip g, gov_yaml_roundtrip g⟩

/-- C5 is false as stated: on a record with no rulesets, the YAML output
still carries a `rulesets` key bound to an empty sequence (yaml.v3 reads
no `json` tags, so no field is omitted), and the YAML key equivalent to
JSON's `required_checks` is `requiredchecks`, not the snake_case name.
JSON does drop the empty field. -/
theorem c5_empty_sequence_counterexample :
    jget (govToYamlPairs (initialGovernance "octo" "hello")) "rulesets" =
      some (JValue.arr []) ∧
    jget (govToYamlPairs (initialGovernance "octo" "hello")) "required_checks" =
      none ∧
    jget (govToYamlPairs (initialGovernance "octo" "hello")) "requiredchecks" =
      some (JValue.arr []) ∧
    jget (govToJsonPairs (initialGovernance "octo" "hello")) "rulesets" = none :=
  ⟨rfl, rfl, rfl, rfl⟩

/-- C5 amended: an empty sequence field is entirely absent from the
serialized JSON output; the YAML output instead always carries every
field — empty sequences included, rendered as empty sequences — under the
lowercased Go field names (`requiredchecks`, `securitysettings`,
`reposettings`, `issuelabels`, ...), not the JSON snake_case names. -/
theorem c5_amended_empty_sequences (g : GovernanceConfig) :
    (jget (govToJsonPairs g) "rulesets" = none ↔ g.Rulesets = []) ∧
    (jget (govToJsonPairs g) "required_checks" = none ↔ g.RequiredChecks = []) ∧
    (jget (govToJsonPairs g) "collaborators" = none ↔ g.Collaborators = []) ∧
    (jget (govToJsonPairs g) "teams" = none ↔ g.Teams = []) ∧
    (jget (govToJsonPairs g) "issue_labels" = none ↔ g.IssueLabels = []) ∧
    (jget (govToJsonPairs g) "milestones" = none ↔ g.Milestones = []) ∧
    (govToYamlPairs g).map Prod.fst =
      ["repository", "rulesets", "requiredchecks", "collaborators", "teams",
       "securitysettings", "reposettings", "issuelabels", "milestones"] ∧
    jget (govToYamlPairs g) "rulesets" =
      some (.arr (g.Rulesets.map rulesetToYaml)) ∧
    jget (govToYamlPairs g) "requiredchecks" =
      some (.arr (g.RequiredChecks.map JValue.str)) ∧
    jget (govToYamlPairs g) "collaborators" =
      some (.arr (g.Collaborators.map collaboratorToYaml)) ∧
    jget (govToYamlPairs g) "teams" = some (.arr (g.Teams.map teamToYaml)) ∧
    jget (govToYamlPairs g) "issuelabels" =
      some (.arr (g.IssueLabels.map labelToYaml)) ∧
    jget (govToYamlPairs g) "milestones" =
      some (.arr (g.Milestones.map milestoneToYaml)) := by
  refine ⟨?_, ?_, ?_, ?_, ?_, ?_, ?_, ?_, ?_, ?_, ?_, ?_, ?_⟩
  · cases hz : g.Rulesets <;> simp [govToJsonPairs, jget, hz]
  · cases hz : g.RequiredChecks <;> simp [govToJsonPairs, jget, hz]
  · cases hz : g.Collaborators <;> simp [govToJsonPairs, jget, hz]
  · cases hz : g.Teams <;> simp [govToJsonPairs, jget, hz]
  · cases hz : g.IssueLabels <;> simp [govToJsonPairs, jget, hz]
  · cases hz : g.Milestones <;> simp [govToJsonPairs, jget, hz]
  · simp [govToYamlPairs]
  · simp [govToYamlPairs, jget]
  · simp [govToYamlPairs, jget]
  · simp [govToYamlPairs, jget]
  · simp [govToYamlPairs, jget]
  · simp [govToYamlPairs, jget]
  · simp [govToYamlPairs, jget]

/-- C1: the section-filter decision `included(L, S)` returns true when `L`
is empty, and for non-empty `L` it returns true iff `S` is a member of `L`
under exact, case-sensitive string comparison with no normalization. -/
theorem c1_section_filter (L : List String) (S : String) :
    ShouldIncludeSection L S = true ↔ (L = [] ∨ S ∈ L) := by
  cases L with
  | nil => simp [ShouldIncludeSection]
  | cons a l => simp [ShouldIncludeSection, List.contains, List.elem_iff]

/-- C9: in table rendering, a milestone's state glyph is the closed glyph
exactly when the state string is `"closed"`; every other state value
(including `""`, `"Closed"` and unknown states) renders the open glyph. -/
theorem c9_milestone_state_glyph (s : String) :
    (milestoneStateIcon s = "🔴" ↔ s = "closed") ∧
    (milestoneStateIcon s = "🟢" ↔ ¬ s = "closed") := by
  by_cases h : s = "closed" <;> simp [milestoneStateIcon, h]

/-- C4: for every format string outside {json, yaml, yml, table} compared
case-insensitively, rendering fails without writing anything to standard
output, and the error text contains the literal offending value. -/
theorem c4_unsupported_format (outputFormat : String) (g : GovernanceConfig)
    (sectionsFilter : List String)
    (h : toLowerGo outputFormat ∉ (["json", "yaml", "yml", "table"] : List String)) :
    outputGovernance outputFormat g sectionsFilter =
      ([], some ("unsupported output format: " ++ outputFormat)) ∧
    ∃ pre suf,
      "unsupported output format: " ++ outputFormat = pre ++ outputFormat ++ suf := by
  have h' := h
  simp only [List.mem_cons, List.mem_singleton, not_or] at h'
  refine ⟨?_, "unsupported output format: ", "", by simp⟩
  simp [outputGovernance, h'.1, h'.2.1, h'.2.2.1, h'.2.2.2]

/-- Witness for C4 at the concrete format string `"xml"`. -/
theorem c4_unsupported_format_witness :
    toLowerGo "xml" ∉ (["json", "yaml", "yml", "table"] : List String) ∧
    outputGovernance "xml" (initialGovernance "octo" "hello") ["settings"] =
      ([], some ("unsupported output format: " ++ "xml")) :=
  ⟨by decide,
   (c4_unsupported_format "xml" (initialGovernance "octo" "hello") ["settings"]
     (by decide)).1⟩

/-- C10: rendering in table format never returns an error, for every
record and section filter; the table branch writes its chunks and yields
no error value. -/
theorem c10_table_always_succeeds (g : GovernanceConfig) (sectionsFilter : List String) :
    (outputGovernance "table" g sectionsFilter).2 = none ∧
    (outputGovernance "table" g sectionsFilter).1 =
      (outputTable g sectionsFilter).map OutChunk.raw := by
  constructor <;> rfl

/-- C3: the aggregator attempts the `RepositorySettings` collector first
and unconditionally, then invokes each of the remaining six facet
collectors exactly when the section filter includes its name, in the
fixed order settings, rulesets, collaborators, teams, security, labels,
milestones. -/
theorem c3_collector_order (res : CollectorResults) (gap : MockGap)
    (sections : List String) (verbose : Bool) (owner repo : String) :
    (inspectRepositoryGo res gap sections verbose owner repo).2.2 =
      "settings" ::
        (["rulesets", "collaborators", "teams", "security", "labels",
          "milestones"].filter fun s => ShouldIncludeSection sections s) := by
  simp only [inspectRepositoryGo, shouldIncludeSection, List.filter_cons,
             List.filter_nil]
  split_ifs <;> simp

/-- C7: an `owner/repo` argument without exactly one slash makes the run
fail with the argument error on standard error, exit code 1, and zero
hosting-API calls. -/
theorem c7_malformed_repo_argument (env : Env) (sections : List String)
    (outputFormat : String) (verbose : Bool) (repo : String)
    (h : repo.data.count '/' ≠ 1) :
    mainRun env [repo] sections outputFormat verbose =
      { stdout := [],
        stderr := ["Error: repository must be in format 'owner/repo'\n"],
        exitCode := 1, apiCalls := [] } := by
  have hlen : (splitSlash repo.data).length ≠ 2 := by
    rw [splitSlash_length]; omega
  rcases hs : splitSlash repo.data with _ | ⟨o, _ | ⟨n, _ | ⟨m, rest⟩⟩⟩
  · simp [mainRun, runInspect, hs]
  · simp [mainRun, runInspect, hs]
  · exact absurd (by rw [hs]; rfl) hlen
  · simp [mainRun, runInspect, hs]

/-- Witness for C7 at the concrete argument `"ownerrepo"`. -/
theorem c7_malformed_repo_argument_witness :
    ("ownerrepo" : String).data.count '/' ≠ 1 ∧
    mainRun envExample ["ownerrepo"] [] "json" false =
      { stdout := [],
        stderr := ["Error: repository must be in format 'owner/repo'\n"],
        exitCode := 1, apiCalls := [] } :=
  ⟨by decide,
   c7_malformed_repo_argument envExample [] "json" false "ownerrepo" (by decide)⟩

/-- The aggregator's resulting record does not depend on the verbose
flag. -/
theorem inspectRepositoryGo_record_verbose (res : CollectorResults)
    (gap : MockGap) (sections : List String) (v v' : Bool)
    (owner repo : String) :
    (inspectRepositoryGo res gap sections v owner repo).1 =
      (inspectRepositoryGo res gap sections v' owner repo).1 := rfl

set_option linter.unnecessarySeqFocus false in
/-- `runInspect`'s returned error and stdout chunks do not depend on the
verbose flag. -/
theorem runInspect_verbose_inv (env : Env) (args sections : List String)
    (outputFormat : String) (v v' : Bool) :
    (runInspect env args sections outputFormat v).err =
      (runInspect env args sections outputFormat v').err ∧
    (runInspect env args sections outputFormat v).stdout =
      (runInspect env args sections outputFormat v').stdout := by
  rcases args with _ | ⟨a, rest⟩
  · rcases henv : env.clientErr with _ | e
    · rcases hcr : env.currentRepo with e | s
      · simp [runInspect, getCurrentRepo, henv, hcr]
      · rcases hs : splitSlash s.data with _ | ⟨o, _ | ⟨n, _ | ⟨m, r2⟩⟩⟩ <;>
          simp [runInspect, getCurrentRepo, henv, hcr, hs] <;>
          exact ⟨rfl, rfl⟩
    · simp [runInspect, getCurrentRepo, henv]
  · rcases henv : env.clientErr with _ | e
    · rcases hs : splitSlash a.data with _ | ⟨o, _ | ⟨n, _ | ⟨m, r2⟩⟩⟩ <;>
        simp [runInspect, henv, hs] <;>
        exact ⟨rfl, rfl⟩
    · rcases hs : splitSlash a.data with _ | ⟨o, _ | ⟨n, _ | ⟨m, r2⟩⟩⟩ <;>
        simp [runInspect, henv, hs]

/-- C8: two runs differing only in the verbose flag write identical bytes
to standard output and exit with the same code; verbosity toggles stderr
diagnostics only. -/
theorem c8_verbose_only_stderr (env : Env) (args sections : List String)
    (outputFormat : String) (v v' : Bool) :
    (mainRun env args sections outputFormat v).stdout =
      (mainRun env args sections outputFormat v').stdout ∧
    (mainRun env args sections outputFormat v).exitCode =
      (mainRun env args sections outputFormat v').exitCode := by
  obtain ⟨he, hst⟩ := runInspect_verbose_inv env args sections outputFormat v v'
  cases hr : (runInspect env args sections outputFormat v').err with
  | none => simp [mainRun, he, hst, hr]
  | some e => simp [mainRun, he, hst, hr]

/-- A collected collaborator distinct from every mock collaborator. -/
def collaboratorC2 : Collaborator :=
  { Login := "octocat", Permission := "write", «Type» := "User" }

/-- C2's run: the teams collector fails, every other collector succeeds
with sample data. -/
def collectorsC2 : CollectorResults :=
  { settings := .ok settingsExample,
    rulesets := .ok [rulesetExample],
    collaborators := .ok [collaboratorC2],
    teams := .error "HTTP 403",
    security := .ok securityExample,
    labels := .ok [labelExample],
    milestones := .ok [milestoneExample] }

/-- C2's environment, over an arbitrary instance of the mock literal's
unseen opening fields. -/
def envC2 (gap : MockGap) : Env :=
  { clientErr := none, currentRepo := .error "no repositories found",
    collectors := collectorsC2, mockGap := gap }

/-- C2 is right about the intended contract but the code deviates: with
the teams collector failing and every other collector succeeding, the run
does exit 0 and the teams warning reaches stderr exactly when verbose is
on — but the rendered output is the fixed mock record, not the collected
data: the collected collaborator is absent from it and the mock teams
appear even though the teams collector failed, for every instantiation of
the mock literal's unseen fields. -/
theorem c2_mock_overwrite_bug (gap : MockGap) (verbose : Bool) :
    (mainRun (envC2 gap) ["octo/hello"] [] "json" verbose).exitCode = 0 ∧
    (mainRun (envC2 gap) ["octo/hello"] [] "json" verbose).stdout =
      [OutChunk.json (govToJson (mockGovernance gap))] ∧
    (mockGovernance gap).Collaborators ≠ [collaboratorC2] ∧
    (mockGovernance gap).Teams = mockTeams ∧
    mockTeams ≠ [] ∧
    (mainRun (envC2 gap) ["octo/hello"] [] "json" verbose).stderr =
      (if verbose then
         ["Inspecting repository: " ++ "octo" ++ "/" ++ "hello" ++ "\n",
          "Warning: failed to get teams: " ++ "HTTP 403" ++ "\n",
          mockDataNote]
       else []) := by
  have hsplit : splitSlash ("octo/hello" : String).data =
      ["octo".data, "hello".data] := by decide
  cases verbose <;>
    simp [mainRun, runInspect, hsplit, envC2, collectorsC2,
          inspectRepositoryGo, applyStep, stepWarn, shouldIncludeSection,
          ShouldIncludeSection, outputGovernance, mockGovernance,
          mockCollaborators, mockTeams, collaboratorC2, toLowerGo]

end RepoInspect
